import Mathlib

/-
  Verification of the fitness-tracker module (src/tracker.py).

  Embedding choices:
  * Python numbers (int and float) are embedded as exact rationals. All the
    arithmetic in the module is +, -, *, /, ** 2 and floor division, so the
    rational semantics is the ideal-arithmetic reading of the code; the spec
    states approximate expectations with tolerances, which the exact values
    satisfy or refute with room to spare.
  * Python raises ZeroDivisionError on x / 0 and x // 0, and TypeError when a
    constructor is called with the wrong number of positional arguments. The
    spec surfaces both as the domain error InvalidReadingError, and the
    unknown-workout-code ValueError as UnknownWorkoutTypeError. The embedding
    uses an explicit error type with those two spec-level constructors, and
    Except-valued functions wherever the Python code can raise.
  * Floor division a // b on Python floats computes the floor of the true
    quotient; it is embedded as Int.floor of the rational quotient.
-/

/-- A raw sensor value in a data packet: a number or a string. -/
inductive Value where
  | num (q : ℚ)
  | str (s : String)
  deriving DecidableEq, Repr

/-- Spec-level error taxonomy: UnknownWorkoutTypeError carries the offending
workout-type code (the code raises ValueError with the code interpolated in
the message); invalidReading covers wrong constructor arity (Python TypeError)
and division by zero (Python ZeroDivisionError). -/
inductive TrackerError where
  | unknownWorkoutType (code : String)
  | invalidReading
  deriving DecidableEq, Repr

/-- The four activity record variants. Fields follow the constructors in
tracker.py: Training.__init__(action, duration, weight) plus the
activity-specific extras area_type, height, length_pool and count_pool.
The attribute holding length_pool is spelled lenght_pool in the source; the
parameter spelling is used here. -/
inductive Training where
  | running (action duration weight : ℚ)
  | sportsWalking (action duration weight height : ℚ)
  | cycling (action duration weight : ℚ) (area_type : String)
  | swimming (action duration weight length_pool count_pool : ℚ)
  deriving DecidableEq, Repr

/-- Class constant Training.M_IN_KM = 1000. -/
def Training.M_IN_KM : ℚ := 1000

/-- Class constant Training.MINUTES_IN_HOUR = 60. -/
def Training.MINUTES_IN_HOUR : ℚ := 60

/-- Class constant Training.LEN_STEP = 0.65 (inherited by Running and
SportsWalking). -/
def Training.LEN_STEP : ℚ := 0.65

/-- Class constant Cycling.LEN_STEP = 1.40. -/
def Cycling.LEN_STEP : ℚ := 1.40

/-- Class constant Cycling.COEFF_FOR_TRAIL = 6. -/
def Cycling.COEFF_FOR_TRAIL : ℚ := 6

/-- Class constant Cycling.COEFF_FOR_CLASSIC = 2.5. -/
def Cycling.COEFF_FOR_CLASSIC : ℚ := 2.5

/-- Class constant Running.COEFF3 = 18. -/
def Running.COEFF3 : ℚ := 18

/-- Class constant Running.COEFF4 = 20. -/
def Running.COEFF4 : ℚ := 20

/-- Class constant SportsWalking.COEFF_CALORIES_1 = 0.035. -/
def SportsWalking.COEFF_CALORIES_1 : ℚ := 0.035

/-- Class constant SportsWalking.COEFF_CALORIES_2 = 0.029. -/
def SportsWalking.COEFF_CALORIES_2 : ℚ := 0.029

/-- Class constant Swimming.COEFF1 = 1.1. -/
def Swimming.COEFF1 : ℚ := 1.1

/-- Class constant Swimming.COEFF2 = 2. -/
def Swimming.COEFF2 : ℚ := 2

/-- Class constant Swimming.LEN_STEP = 1.38. -/
def Swimming.LEN_STEP : ℚ := 1.38

/-- The instance attribute self.action. -/
def Training.action : Training → ℚ
  | .running a _ _ => a
  | .sportsWalking a _ _ _ => a
  | .cycling a _ _ _ => a
  | .swimming a _ _ _ _ => a

/-- The instance attribute self.duration. -/
def Training.duration : Training → ℚ
  | .running _ d _ => d
  | .sportsWalking _ d _ _ => d
  | .cycling _ d _ _ => d
  | .swimming _ d _ _ _ => d

/-- The instance attribute self.weight. -/
def Training.weight : Training → ℚ
  | .running _ _ w => w
  | .sportsWalking _ _ w _ => w
  | .cycling _ _ w _ => w
  | .swimming _ _ w _ _ => w

/-- The value of self.LEN_STEP resolved per class: Running and SportsWalking
inherit 0.65 from Training, Cycling overrides with 1.40, Swimming with 1.38. -/
def Training.len_step : Training → ℚ
  | .running _ _ _ => Training.LEN_STEP
  | .sportsWalking _ _ _ _ => Training.LEN_STEP
  | .cycling _ _ _ _ => Cycling.LEN_STEP
  | .swimming _ _ _ _ _ => Swimming.LEN_STEP

/-- self.__class__.__name__, used by show_training_info. -/
def Training.class_name : Training → String
  | .running _ _ _ => "Running"
  | .sportsWalking _ _ _ _ => "SportsWalking"
  | .cycling _ _ _ _ => "Cycling"
  | .swimming _ _ _ _ _ => "Swimming"

/-- get_distance: (self.action * self.LEN_STEP) / self.M_IN_KM. Training
defines it and Cycling and Swimming override it with the textually identical
body, so one definition over the class-resolved LEN_STEP covers all four. -/
def Training.get_distance (t : Training) : ℚ :=
  t.action * t.len_step / Training.M_IN_KM

/-- get_mean_speed: the base class computes self.get_distance() /
self.duration; Swimming overrides with self.lenght_pool * self.count_pool /
self.M_IN_KM / self.duration. A zero duration raises ZeroDivisionError in
Python, embedded as the invalidReading error. -/
def Training.get_mean_speed : Training → Except TrackerError ℚ
  | .running a d w =>
      if d = 0 then .error .invalidReading
      else .ok (Training.get_distance (.running a d w) / d)
  | .sportsWalking a d w h =>
      if d = 0 then .error .invalidReading
      else .ok (Training.get_distance (.sportsWalking a d w h) / d)
  | .cycling a d w area_type =>
      if d = 0 then .error .invalidReading
      else .ok (Training.get_distance (.cycling a d w area_type) / d)
  | .swimming _ d _ lp cp =>
      if d = 0 then .error .invalidReading
      else .ok (lp * cp / Training.M_IN_KM / d)

/-- get_spent_calories of each subclass, dispatched on the variant.
Running: ((COEFF3 * speed - COEFF4) * weight / M_IN_KM) * (duration * 60).
SportsWalking: (COEFF_CALORIES_1 * weight + (speed ** 2 // height) *
COEFF_CALORIES_2 * weight) * (duration * 60), with Python float floor
division embedded as Int.floor of the quotient; dividing by a zero height
raises ZeroDivisionError, embedded as invalidReading.
Cycling: rate = COEFF_FOR_TRAIL * speed * weight when area_type == "trail",
else COEFF_FOR_CLASSIC * speed * weight; result (rate / M_IN_KM) *
(duration * 60).
Swimming: (speed + COEFF1) * COEFF2 * weight. -/
def Training.get_spent_calories : Training → Except TrackerError ℚ
  | .running a d w =>
      match Training.get_mean_speed (.running a d w) with
      | .error e => .error e
      | .ok s =>
          .ok (((Running.COEFF3 * s - Running.COEFF4) * w / Training.M_IN_KM)
                * (d * Training.MINUTES_IN_HOUR))
  | .sportsWalking a d w h =>
      match Training.get_mean_speed (.sportsWalking a d w h) with
      | .error e => .error e
      | .ok s =>
          if h = 0 then .error .invalidReading
          else
            .ok ((SportsWalking.COEFF_CALORIES_1 * w
                  + ((⌊s ^ 2 / h⌋ : ℤ) : ℚ) * SportsWalking.COEFF_CALORIES_2 * w)
                 * (d * Training.MINUTES_IN_HOUR))
  | .cycling a d w area_type =>
      match Training.get_mean_speed (.cycling a d w area_type) with
      | .error e => .error e
      | .ok s =>
          .ok (((if area_type = "trail" then Cycling.COEFF_FOR_TRAIL * s * w
                 else Cycling.COEFF_FOR_CLASSIC * s * w) / Training.M_IN_KM)
                * (d * Training.MINUTES_IN_HOUR))
  | .swimming a d w lp cp =>
      match Training.get_mean_speed (.swimming a d w lp cp) with
      | .error e => .error e
      | .ok s => .ok ((s + Swimming.COEFF1) * Swimming.COEFF2 * w)

/-- The dataclass InfoMessage with its five fields. -/
structure InfoMessage where
  training_type : String
  duration : ℚ
  distance : ℚ
  speed : ℚ
  calories : ℚ
  deriving DecidableEq, Repr

/-- Three-digit zero padding of the fractional part. -/
def pad3 (n : ℕ) : String :=
  if n < 10 then "00" ++ toString n
  else if n < 100 then "0" ++ toString n
  else toString n

/-- Fixed-point rendering with three decimal places, the meaning of the
Python format specifier .3f: round value * 1000 to the nearest integer and
print it with a decimal point before the last three digits. -/
def formatFixed3 (q : ℚ) : String :=
  let n : ℤ := round (q * 1000)
  let sign := if n < 0 then "-" else ""
  let m : ℕ := n.natAbs
  sign ++ toString (m / 1000) ++ "." ++ pad3 (m % 1000)

/-- InfoMessage.get_message: self.message.format(**asdict(self)) where
message is the fixed Russian template with the four numeric fields formatted
by .3f. The template substitution is embedded as direct concatenation. -/
def InfoMessage.get_message (m : InfoMessage) : String :=
  "Тип тренировки: " ++ m.training_type
  ++ "; Длительность: " ++ formatFixed3 m.duration
  ++ " ч.; Дистанция: " ++ formatFixed3 m.distance
  ++ " км; Ср. скорость: " ++ formatFixed3 m.speed
  ++ " км/ч; Потрачено ккал: " ++ formatFixed3 m.calories ++ "."

/-- show_training_info: InfoMessage(self.__class__.__name__, self.duration,
self.get_distance(), self.get_mean_speed(), self.get_spent_calories());
a ZeroDivisionError raised while computing speed or calories propagates. -/
def Training.show_training_info (t : Training) : Except TrackerError InfoMessage :=
  match t.get_mean_speed with
  | .error e => .error e
  | .ok s =>
      match t.get_spent_calories with
      | .error e => .error e
      | .ok c => .ok ⟨t.class_name, t.duration, t.get_distance, s, c⟩

/-- Construction of Swimming from a positional data list: exactly five
values. Python raises TypeError on any other count, embedded as
invalidReading; the numeric fields must be numbers (Python defers a
non-numeric value to a later TypeError in the arithmetic, the spec surfaces
both as InvalidReadingError). -/
def mkSwimming (data : List Value) : Except TrackerError Training :=
  match data with
  | [a, d, w, lp, cp] =>
      match a, d, w, lp, cp with
      | .num a, .num d, .num w, .num lp, .num cp =>
          .ok (.swimming a d w lp cp)
      | _, _, _, _, _ => .error .invalidReading
  | _ => .error .invalidReading

/-- Construction of Running from a positional data list: exactly three
values. -/
def mkRunning (data : List Value) : Except TrackerError Training :=
  match data with
  | [a, d, w] =>
      match a, d, w with
      | .num a, .num d, .num w => .ok (.running a d w)
      | _, _, _ => .error .invalidReading
  | _ => .error .invalidReading

/-- Construction of SportsWalking from a positional data list: exactly four
values. -/
def mkSportsWalking (data : List Value) : Except TrackerError Training :=
  match data with
  | [a, d, w, h] =>
      match a, d, w, h with
      | .num a, .num d, .num w, .num h => .ok (.sportsWalking a d w h)
      | _, _, _, _ => .error .invalidReading
  | _ => .error .invalidReading

/-- Construction of Cycling from a positional data list: exactly four
values, the last being the area_type string. -/
def mkCycling (data : List Value) : Except TrackerError Training :=
  match data with
  | [a, d, w, area] =>
      match a, d, w, area with
      | .num a, .num d, .num w, .str area => .ok (.cycling a d w area)
      | _, _, _, _ => .error .invalidReading
  | _ => .error .invalidReading

/-- read_package: looks the workout-type code up in the dict mapping SWM,
RUN, WLK, CYC to the four classes; on a miss raises ValueError with the
offending code in the message, embedded as the unknownWorkoutType error
carrying the code; on a hit calls the class constructor on the unpacked
data list. -/
def read_package (workout_type : String) (data : List Value) :
    Except TrackerError Training :=
  if workout_type = "SWM" then mkSwimming data
  else if workout_type = "RUN" then mkRunning data
  else if workout_type = "WLK" then mkSportsWalking data
  else if workout_type = "CYC" then mkCycling data
  else .error (.unknownWorkoutType workout_type)

/-- Modelled from the spec: the SportsWalking calorie formula of Scenario C
computed with true division in place of the floor division, the comparison
value the spec asks a test to differ from. -/
def spec_walking_calories_realdiv (a d w h : ℚ) : ℚ :=
  let s := a * Training.LEN_STEP / Training.M_IN_KM / d
  (SportsWalking.COEFF_CALORIES_1 * w
    + (s ^ 2 / h) * SportsWalking.COEFF_CALORIES_2 * w)
  * (d * Training.MINUTES_IN_HOUR)

/-- Modelled from the spec: the English fixed template of section 4.3, used
as the comparison rendering for the template check. -/
def spec_render (m : InfoMessage) : String :=
  "Activity type: " ++ m.training_type
  ++ "; Duration: " ++ formatFixed3 m.duration
  ++ " h; Distance: " ++ formatFixed3 m.distance
  ++ " km; Mean speed: " ++ formatFixed3 m.speed
  ++ " km/h; Calories: " ++ formatFixed3 m.calories ++ "."

/-- Claim C1, as stated, is false at its own input: the Running formula at
actionCount 15000, durationHours 1, weightKg 75 yields exactly 699.75
kilocalories, which is 570.6 away from the claimed approximate value
129.150. -/
theorem claim_C1_counterexample :
    Training.get_spent_calories (.running 15000 1 75) = .ok 699.75
    ∧ (699.75 : ℚ) - 129.150 = 570.6 := by
  constructor
  · norm_num [Training.get_spent_calories, Training.get_mean_speed,
      Training.get_distance, Training.action, Training.len_step,
      Training.LEN_STEP, Training.M_IN_KM, Training.MINUTES_IN_HOUR,
      Running.COEFF3, Running.COEFF4]
  · norm_num

/-- Claim C1 (amended): for the Running reading from actionCount 15000,
durationHours 1, weightKg 75, the distance is 9.750 km, the mean speed is
9.750 km/h, and the calories equal the Running formula value
(18 * meanSpeed - 20) * weightKg / 1000 * (durationHours * 60), which is
exactly 699.750. -/
theorem claim_C1 :
    Training.get_distance (.running 15000 1 75) = 9.75
    ∧ Training.get_mean_speed (.running 15000 1 75) = .ok 9.75
    ∧ Training.get_spent_calories (.running 15000 1 75)
        = .ok ((18 * 9.75 - 20) * 75 / 1000 * (1 * 60))
    ∧ (18 * 9.75 - 20) * 75 / 1000 * (1 * 60) = (699.75 : ℚ) := by
  refine ⟨?_, ?_, ?_, by norm_num⟩ <;>
    norm_num [Training.get_spent_calories, Training.get_mean_speed,
      Training.get_distance, Training.action, Training.len_step,
      Training.LEN_STEP, Training.M_IN_KM, Training.MINUTES_IN_HOUR,
      Running.COEFF3, Running.COEFF4]

/-- Claim C5: for the Swimming reading from actionCount 720, durationHours 1,
weightKg 80, poolLengthM 25, poolLaps 40, the distance is 621/625 km, which
is 1/2500 below 0.994 and so within half a thousandth of it; the mean speed
is exactly 1 km/h; and the calories are exactly 336, the value of the
Swimming formula (meanSpeed + 1.1) * 2 * weightKg. -/
theorem claim_C5 :
    Training.get_distance (.swimming 720 1 80 25 40) = 621 / 625
    ∧ (0.994 : ℚ) - 621 / 625 = 1 / 2500
    ∧ (1 / 2500 : ℚ) < 1 / 2000
    ∧ Training.get_mean_speed (.swimming 720 1 80 25 40) = .ok 1
    ∧ Training.get_spent_calories (.swimming 720 1 80 25 40) = .ok 336
    ∧ ((1 : ℚ) + 1.1) * 2 * 80 = 336 := by
  refine ⟨?_, by norm_num, by norm_num, ?_, ?_, by norm_num⟩ <;>
    norm_num [Training.get_spent_calories, Training.get_mean_speed,
      Training.get_distance, Training.action, Training.len_step,
      Swimming.LEN_STEP, Swimming.COEFF1, Swimming.COEFF2,
      Training.M_IN_KM]

/-- Claim C10: Swimming mean speed and calories are independent of
actionCount, which only enters the distance; at Scenario A the distance
(621/625 km) disagrees with meanSpeed times duration (1 km). -/
theorem claim_C10 :
    (∀ a₁ a₂ d w lp cp : ℚ,
      Training.get_mean_speed (.swimming a₁ d w lp cp)
        = Training.get_mean_speed (.swimming a₂ d w lp cp))
    ∧ (∀ a₁ a₂ d w lp cp : ℚ,
      Training.get_spent_calories (.swimming a₁ d w lp cp)
        = Training.get_spent_calories (.swimming a₂ d w lp cp))
    ∧ Training.get_distance (.swimming 720 1 80 25 40) = 621 / 625
    ∧ Training.get_mean_speed (.swimming 720 1 80 25 40) = .ok 1
    ∧ (1 * 1 : ℚ) ≠ 621 / 625 := by
  refine ⟨fun a₁ a₂ d w lp cp => rfl, fun a₁ a₂ d w lp cp => rfl, ?_, ?_,
    by norm_num⟩ <;>
    norm_num [Training.get_mean_speed, Training.get_distance,
      Training.action, Training.len_step, Swimming.LEN_STEP,
      Training.M_IN_KM]

/-- Claim C2: for every SportsWalking reading with nonzero height whose mean
speed computes to s, the calories equal
(0.035 * w + floor(s ^ 2 / h) * 0.029 * w) * (d * 60) with floor division,
and at Scenario C (actionCount 9000, durationHours 1, weightKg 75,
heightCm 180) the result 157.5 differs from the same formula computed with
true division. -/
theorem claim_C2 :
    (∀ a d w h s : ℚ, h ≠ 0 →
      Training.get_mean_speed (.sportsWalking a d w h) = .ok s →
      Training.get_spent_calories (.sportsWalking a d w h)
        = .ok ((0.035 * w + ((⌊s ^ 2 / h⌋ : ℤ) : ℚ) * 0.029 * w) * (d * 60)))
    ∧ Training.get_spent_calories (.sportsWalking 9000 1 75 180) = .ok 157.5
    ∧ spec_walking_calories_realdiv 9000 1 75 180 ≠ 157.5 := by
  refine ⟨?_, ?_, ?_⟩
  · intro a d w h s hh hs
    norm_num [Training.get_spent_calories, hs, hh,
      SportsWalking.COEFF_CALORIES_1, SportsWalking.COEFF_CALORIES_2,
      Training.M_IN_KM, Training.MINUTES_IN_HOUR]
  · norm_num [Training.get_spent_calories, Training.get_mean_speed,
      Training.get_distance, Training.action, Training.len_step,
      Training.LEN_STEP, Training.M_IN_KM, Training.MINUTES_IN_HOUR,
      SportsWalking.COEFF_CALORIES_1, SportsWalking.COEFF_CALORIES_2]
  · norm_num [spec_walking_calories_realdiv, Training.LEN_STEP,
      Training.M_IN_KM, Training.MINUTES_IN_HOUR,
      SportsWalking.COEFF_CALORIES_1, SportsWalking.COEFF_CALORIES_2]

/-- Witness for claim C2 at Scenario C: height 180 is nonzero, the mean
speed is 5.85, and the theorem yields the floor-division formula value. -/
theorem claim_C2_witness :
    Training.get_spent_calories (.sportsWalking 9000 1 75 180)
      = .ok ((0.035 * 75 + ((⌊(5.85 : ℚ) ^ 2 / 180⌋ : ℤ) : ℚ) * 0.029 * 75)
             * (1 * 60)) :=
  claim_C2.1 9000 1 75 180 5.85 (by norm_num)
    (by norm_num [Training.get_mean_speed, Training.get_distance,
      Training.action, Training.len_step, Training.LEN_STEP,
      Training.M_IN_KM])

/-- Claim C3: for every Cycling reading whose mean speed computes to s, the
calories equal (rate / 1000) * (d * 60) where the rate is 6 * s * w exactly
when area_type is the string trail and 2.5 * s * w otherwise; the sample
area_type trial, a typo for trail, takes the classic branch. -/
theorem claim_C3 :
    (∀ (a d w s : ℚ) (area : String),
      Training.get_mean_speed (.cycling a d w area) = .ok s →
      Training.get_spent_calories (.cycling a d w area)
        = .ok (((if area = "trail" then 6 * s * w else 2.5 * s * w) / 1000)
               * (d * 60)))
    ∧ Training.get_mean_speed (.cycling 10000 1 75 "trial") = .ok 14
    ∧ Training.get_spent_calories (.cycling 10000 1 75 "trial")
        = .ok (2.5 * 14 * 75 / 1000 * (1 * 60))
    ∧ ("trial" : String) ≠ "trail" := by
  have htrial : ("trial" : String) ≠ "trail" := by decide
  have hmain : ∀ (a d w s : ℚ) (area : String),
      Training.get_mean_speed (.cycling a d w area) = .ok s →
      Training.get_spent_calories (.cycling a d w area)
        = .ok (((if area = "trail" then 6 * s * w else 2.5 * s * w) / 1000)
               * (d * 60)) := by
    intro a d w s area hs
    norm_num [Training.get_spent_calories, hs,
      Cycling.COEFF_FOR_TRAIL, Cycling.COEFF_FOR_CLASSIC,
      Training.M_IN_KM, Training.MINUTES_IN_HOUR]
  have hspeed : Training.get_mean_speed (.cycling 10000 1 75 "trial")
      = .ok 14 := by
    norm_num [Training.get_mean_speed, Training.get_distance,
      Training.action, Training.len_step, Cycling.LEN_STEP,
      Training.M_IN_KM]
  refine ⟨hmain, hspeed, ?_, htrial⟩
  rw [hmain 10000 1 75 14 "trial" hspeed]
  simp [htrial]

/-- Witness for claim C3 at the trail input: area_type trail with mean speed
14 km/h takes the trail coefficient. -/
theorem claim_C3_witness :
    Training.get_spent_calories (.cycling 10000 1 75 "trail")
      = .ok (((if ("trail" : String) = "trail" then 6 * 14 * 75
               else 2.5 * 14 * 75) / 1000) * (1 * 60)) :=
  claim_C3.1 10000 1 75 14 "trail"
    (by norm_num [Training.get_mean_speed, Training.get_distance,
      Training.action, Training.len_step, Cycling.LEN_STEP,
      Training.M_IN_KM])

/-- Claim C4: for positive duration, the mean speed of Running,
SportsWalking and Cycling readings is the distance divided by the duration,
exactly; Swimming instead computes poolLength * poolLaps / 1000 / duration. -/
theorem claim_C4 :
    (∀ a d w : ℚ, 0 < d →
      Training.get_mean_speed (.running a d w)
        = .ok (Training.get_distance (.running a d w) / d))
    ∧ (∀ a d w h : ℚ, 0 < d →
      Training.get_mean_speed (.sportsWalking a d w h)
        = .ok (Training.get_distance (.sportsWalking a d w h) / d))
    ∧ (∀ (a d w : ℚ) (area : String), 0 < d →
      Training.get_mean_speed (.cycling a d w area)
        = .ok (Training.get_distance (.cycling a d w area) / d))
    ∧ (∀ a d w lp cp : ℚ, 0 < d →
      Training.get_mean_speed (.swimming a d w lp cp)
        = .ok (lp * cp / 1000 / d)) := by
  refine ⟨fun a d w hd => ?_, fun a d w h hd => ?_,
    fun a d w area hd => ?_, fun a d w lp cp hd => ?_⟩ <;>
    simp [Training.get_mean_speed, Training.M_IN_KM, hd.ne']

/-- Witness for claim C4 at the four sample readings, all with duration one
hour. -/
theorem claim_C4_witness :
    Training.get_mean_speed (.running 15000 1 75)
      = .ok (Training.get_distance (.running 15000 1 75) / 1)
    ∧ Training.get_mean_speed (.sportsWalking 9000 1 75 180)
      = .ok (Training.get_distance (.sportsWalking 9000 1 75 180) / 1)
    ∧ Training.get_mean_speed (.cycling 10000 1 75 "trial")
      = .ok (Training.get_distance (.cycling 10000 1 75 "trial") / 1)
    ∧ Training.get_mean_speed (.swimming 720 1 80 25 40)
      = .ok (25 * 40 / 1000 / 1) :=
  ⟨claim_C4.1 15000 1 75 (by norm_num),
   claim_C4.2.1 9000 1 75 180 (by norm_num),
   claim_C4.2.2.1 10000 1 75 "trial" (by norm_num),
   claim_C4.2.2.2 720 1 80 25 40 (by norm_num)⟩

/-- Claim C6: read_package rejects every code outside SWM, RUN, WLK, CYC
with the unknown-workout-type error carrying the offending code, and for
each code in the set it constructs the matching variant from a well-formed
data list. -/
theorem claim_C6 :
    (∀ code : String, code ≠ "SWM" → code ≠ "RUN" → code ≠ "WLK" →
      code ≠ "CYC" → ∀ data : List Value,
      read_package code data = .error (.unknownWorkoutType code))
    ∧ (∀ a d w lp cp : ℚ,
      read_package "SWM" [.num a, .num d, .num w, .num lp, .num cp]
        = .ok (.swimming a d w lp cp))
    ∧ (∀ a d w : ℚ,
      read_package "RUN" [.num a, .num d, .num w] = .ok (.running a d w))
    ∧ (∀ a d w h : ℚ,
      read_package "WLK" [.num a, .num d, .num w, .num h]
        = .ok (.sportsWalking a d w h))
    ∧ (∀ (a d w : ℚ) (area : String),
      read_package "CYC" [.num a, .num d, .num w, .str area]
        = .ok (.cycling a d w area)) := by
  refine ⟨?_, fun a d w lp cp => rfl, fun a d w => rfl,
    fun a d w h => rfl, fun a d w area => rfl⟩
  intro code h1 h2 h3 h4 data
  simp [read_package, h1, h2, h3, h4]

/-- Witness for claim C6: the code XYZ is none of the four known codes and
is rejected with the error carrying it. -/
theorem claim_C6_witness :
    read_package "XYZ" [] = .error (.unknownWorkoutType "XYZ") :=
  claim_C6.1 "XYZ" (by decide) (by decide) (by decide) (by decide) []

/-- Claim C7: the formulas raise nothing on valid positive inputs; a zero
duration makes every mean-speed computation fail with the domain error, and
a zero height makes the SportsWalking calorie computation fail with the
domain error, in both cases propagating rather than being caught. -/
theorem claim_C7 :
    (∀ t : Training, t.duration = 0 →
      t.get_mean_speed = .error .invalidReading)
    ∧ (∀ a d w : ℚ,
      Training.get_spent_calories (.sportsWalking a d w 0)
        = .error .invalidReading)
    ∧ (∀ a d w : ℚ, 0 < d → ∃ c,
      Training.get_spent_calories (.running a d w) = .ok c)
    ∧ (∀ a d w h : ℚ, 0 < d → h ≠ 0 → ∃ c,
      Training.get_spent_calories (.sportsWalking a d w h) = .ok c)
    ∧ (∀ (a d w : ℚ) (area : String), 0 < d → ∃ c,
      Training.get_spent_calories (.cycling a d w area) = .ok c)
    ∧ (∀ a d w lp cp : ℚ, 0 < d → ∃ c,
      Training.get_spent_calories (.swimming a d w lp cp) = .ok c) := by
  refine ⟨?_, ?_, ?_, ?_, ?_, ?_⟩
  · intro t h
    cases t <;> simp [Training.duration] at h <;>
      simp [Training.get_mean_speed, h]
  · intro a d w
    rcases eq_or_ne d 0 with hd | hd <;>
      simp [Training.get_spent_calories, Training.get_mean_speed, hd]
  · intro a d w hd
    simp [Training.get_spent_calories, Training.get_mean_speed, hd.ne']
  · intro a d w h hd hh
    simp [Training.get_spent_calories, Training.get_mean_speed, hd.ne', hh]
  · intro a d w area hd
    simp [Training.get_spent_calories, Training.get_mean_speed, hd.ne']
  · intro a d w lp cp hd
    simp [Training.get_spent_calories, Training.get_mean_speed, hd.ne']

/-- Witness for claim C7: the sample Running reading with its duration set
to zero fails with the domain error; the original sample readings with
positive durations all produce calories. -/
theorem claim_C7_witness :
    (Training.running 15000 0 75).get_mean_speed = .error .invalidReading
    ∧ Training.get_spent_calories (.sportsWalking 9000 1 75 0)
        = .error .invalidReading
    ∧ (∃ c, Training.get_spent_calories (.running 15000 1 75) = .ok c)
    ∧ (∃ c, Training.get_spent_calories (.sportsWalking 9000 1 75 180)
        = .ok c) :=
  ⟨claim_C7.1 (.running 15000 0 75) rfl,
   claim_C7.2.1 9000 1 75,
   claim_C7.2.2.1 15000 1 75 (by norm_num),
   claim_C7.2.2.2.1 9000 1 75 180 (by norm_num) (by norm_num)⟩

/-- A data list whose length is not five makes the Swimming constructor
fail: Python raises TypeError on wrong positional-argument count. -/
theorem mkSwimming_wrong_arity :
    ∀ data : List Value, data.length ≠ 5 →
      mkSwimming data = .error .invalidReading
  | [], _ => rfl
  | [_], _ => rfl
  | [_, _], _ => rfl
  | [_, _, _], _ => rfl
  | [_, _, _, _], _ => rfl
  | [_, _, _, _, _], h => absurd rfl h
  | _ :: _ :: _ :: _ :: _ :: _ :: _, _ => rfl

/-- A data list whose length is not three makes the Running constructor
fail. -/
theorem mkRunning_wrong_arity :
    ∀ data : List Value, data.length ≠ 3 →
      mkRunning data = .error .invalidReading
  | [], _ => rfl
  | [_], _ => rfl
  | [_, _], _ => rfl
  | [_, _, _], h => absurd rfl h
  | _ :: _ :: _ :: _ :: _, _ => rfl

/-- A data list whose length is not four makes the SportsWalking
constructor fail. -/
theorem mkSportsWalking_wrong_arity :
    ∀ data : List Value, data.length ≠ 4 →
      mkSportsWalking data = .error .invalidReading
  | [], _ => rfl
  | [_], _ => rfl
  | [_, _], _ => rfl
  | [_, _, _], _ => rfl
  | [_, _, _, _], h => absurd rfl h
  | _ :: _ :: _ :: _ :: _ :: _, _ => rfl

/-- A data list whose length is not four makes the Cycling constructor
fail. -/
theorem mkCycling_wrong_arity :
    ∀ data : List Value, data.length ≠ 4 →
      mkCycling data = .error .invalidReading
  | [], _ => rfl
  | [_], _ => rfl
  | [_, _], _ => rfl
  | [_, _, _], _ => rfl
  | [_, _, _, _], h => absurd rfl h
  | _ :: _ :: _ :: _ :: _ :: _, _ => rfl

/-- Claim C8: for each known workout-type code, a data list whose count
does not match the constructor arity (Swimming 5, Running 3, SportsWalking
4, Cycling 4) makes read_package fail with the construction error. -/
theorem claim_C8 :
    ∀ data : List Value,
      (data.length ≠ 5 → read_package "SWM" data = .error .invalidReading)
      ∧ (data.length ≠ 3 → read_package "RUN" data = .error .invalidReading)
      ∧ (data.length ≠ 4 → read_package "WLK" data = .error .invalidReading)
      ∧ (data.length ≠ 4 → read_package "CYC" data = .error .invalidReading) := by
  intro data
  exact ⟨fun h => mkSwimming_wrong_arity data h,
    fun h => mkRunning_wrong_arity data h,
    fun h => mkSportsWalking_wrong_arity data h,
    fun h => mkCycling_wrong_arity data h⟩

/-- Witness for claim C8: the empty data list matches no constructor arity
and is rejected for all four codes. -/
theorem claim_C8_witness :
    read_package "SWM" [] = .error .invalidReading
    ∧ read_package "RUN" [] = .error .invalidReading
    ∧ read_package "WLK" [] = .error .invalidReading
    ∧ read_package "CYC" [] = .error .invalidReading :=
  ⟨(claim_C8 []).1 (by decide), (claim_C8 []).2.1 (by decide),
   (claim_C8 []).2.2.1 (by decide), (claim_C8 []).2.2.2 (by decide)⟩

/-- The .3f rendering of 1 is 1.000. -/
theorem formatFixed3_one : formatFixed3 (1 : ℚ) = "1.000" := by
  rw [formatFixed3, show round ((1 : ℚ) * 1000) = 1000 from by
    norm_num [round_eq]]
  rfl

/-- The .3f rendering of 9.75 is 9.750. -/
theorem formatFixed3_975 : formatFixed3 (9.75 : ℚ) = "9.750" := by
  rw [formatFixed3, show round ((9.75 : ℚ) * 1000) = 9750 from by
    norm_num [round_eq]]
  rfl

/-- The .3f rendering of 699.75 is 699.750. -/
theorem formatFixed3_69975 : formatFixed3 (699.75 : ℚ) = "699.750" := by
  rw [formatFixed3, show round ((699.75 : ℚ) * 1000) = 699750 from by
    norm_num [round_eq]]
  rfl

/-- Claim C9, as stated, is false: the reporter renders the Running summary
through the fixed Russian template of the source, which is not the English
template the claim quotes; the two renderings of the same summary differ. -/
theorem claim_C9_counterexample :
    Training.show_training_info (.running 15000 1 75)
      = .ok ⟨"Running", 1, 9.75, 9.75, 699.75⟩
    ∧ InfoMessage.get_message ⟨"Running", 1, 9.75, 9.75, 699.75⟩
      ≠ spec_render ⟨"Running", 1, 9.75, 9.75, 699.75⟩ := by
  constructor
  · norm_num [Training.show_training_info, Training.get_mean_speed,
      Training.get_spent_calories, Training.get_distance, Training.action,
      Training.len_step, Training.LEN_STEP, Training.M_IN_KM,
      Training.MINUTES_IN_HOUR, Running.COEFF3, Running.COEFF4,
      Training.class_name, Training.duration]
  · rw [InfoMessage.get_message, spec_render]
    simp only []
    rw [formatFixed3_one, formatFixed3_975, formatFixed3_69975]
    decide

/-- Claim C9 (amended): for every reading whose summary computes, the
reporter renders exactly the fixed template of the source, Тип тренировки,
Длительность, Дистанция, Ср. скорость and Потрачено ккал separated by
semicolons, with the four numeric fields formatted to exactly three decimal
places by formatFixed3, the .3f rounding. -/
theorem claim_C9 :
    ∀ (t : Training) (s c : ℚ) (m : InfoMessage),
      t.get_mean_speed = .ok s → t.get_spent_calories = .ok c →
      t.show_training_info = .ok m →
      m.get_message =
        "Тип тренировки: " ++ t.class_name
        ++ "; Длительность: " ++ formatFixed3 t.duration
        ++ " ч.; Дистанция: " ++ formatFixed3 t.get_distance
        ++ " км; Ср. скорость: " ++ formatFixed3 s
        ++ " км/ч; Потрачено ккал: " ++ formatFixed3 c ++ "." := by
  intro t s c m hs hc hm
  unfold Training.show_training_info at hm
  rw [hs, hc] at hm
  have hm2 : Except.ok (⟨t.class_name, t.duration, t.get_distance, s, c⟩ :
      InfoMessage) = Except.ok m := hm
  injection hm2 with h
  rw [← h]
  rfl

/-- Witness for claim C9 at the Running sample reading. -/
theorem claim_C9_witness :
    InfoMessage.get_message ⟨"Running", 1, 9.75, 9.75, 699.75⟩
      = "Тип тренировки: " ++ (Training.running 15000 1 75).class_name
        ++ "; Длительность: "
        ++ formatFixed3 (Training.running 15000 1 75).duration
        ++ " ч.; Дистанция: "
        ++ formatFixed3 (Training.running 15000 1 75).get_distance
        ++ " км; Ср. скорость: " ++ formatFixed3 9.75
        ++ " км/ч; Потрачено ккал: " ++ formatFixed3 699.75 ++ "." :=
  claim_C9 (.running 15000 1 75) 9.75 699.75 ⟨"Running", 1, 9.75, 9.75, 699.75⟩
    (by norm_num [Training.get_mean_speed, Training.get_distance,
      Training.action, Training.len_step, Training.LEN_STEP,
      Training.M_IN_KM])
    (by norm_num [Training.get_spent_calories, Training.get_mean_speed,
      Training.get_distance, Training.action, Training.len_step,
      Training.LEN_STEP, Training.M_IN_KM, Training.MINUTES_IN_HOUR,
      Running.COEFF3, Running.COEFF4])
    (by norm_num [Training.show_training_info, Training.get_mean_speed,
      Training.get_spent_calories, Training.get_distance, Training.action,
      Training.len_step, Training.LEN_STEP, Training.M_IN_KM,
      Training.MINUTES_IN_HOUR, Running.COEFF3, Running.COEFF4,
      Training.class_name, Training.duration])
